import Mathlib

/-!
Verification development for the volconvo forum server (package `forum`).

The definitions below are a shallow embedding of the credential-resolution
middleware (`ValidateSessionToken`, forum/handlers.go) and of the
notification pipeline (`StartNotificationListener`, the buffered channel
created in `NewHandlers`, and the notification read/delete handlers).
External repositories (Postgres via `Database`) are modelled as oracle
functions returning the three outcomes a `(*T, error)` pair can take in
this codebase: a non-nil value with nil error, a nil value with nil error
(the explicit not-found contract of `GetTokenByValue` / `GetUserByEmail`),
and a nil value with a non-nil error. Go `time.Time` instants are `Nat`;
the zero value of `time.Time` (`IsZero`) is `0`.
-/

namespace Volconvo

/-- Embeds `forum.Notification` (forum/user.go:136-144). `readAt = 0` is the
Go zero value of `time.Time`, i.e. an unread notification. -/
structure Notification where
  fromUser : String
  id : String
  userID : String
  message : String
  createdAt : Nat
  readAt : Nat
  link : String
deriving DecidableEq, Repr

/-- Embeds `forum.Token` (forum/user.go:16-25), the session token record.
The `hash` bytes are irrelevant to the claims and omitted. -/
structure Token where
  handle : String
  id : String
  email : String
  userID : String
  token : String
  createdAt : Nat
  expiresAt : Nat
deriving DecidableEq, Repr

/-- Embeds the fields of `forum.User` (forum/user.go:72-84) that the
credential and notification paths read: the API key, the email, and the
notification list. -/
structure User where
  id : String
  email : String
  key : String
  handle : String
  notifications : List Notification
deriving DecidableEq, Repr

/-- Outcome of a Go repository call returning `(*T, error)` in this
codebase: `ok v` is a non-nil pointer with nil error, `notFound` is the
explicit `(nil, nil)` returned on `sql.ErrNoRows`
(forum/db.go:266-268 and forum/db.go:299-301), and `err` is `(nil, e)`
for a non-nil error. -/
inductive RepoResult (α : Type) where
  | ok : α → RepoResult α
  | notFound : RepoResult α
  | err : RepoResult α
deriving DecidableEq, Repr

/-- Splits a character list at every occurrence of `sep`, keeping empty
segments, by structural recursion. -/
def splitCharList (sep : Char) : List Char → List (List Char)
  | [] => [[]]
  | c :: cs =>
      match splitCharList sep cs with
      | [] => [[c]]
      | r :: rs => if c = sep then [] :: r :: rs else (c :: r) :: rs

/-- Embeds Go's `strings.Split(s, ":")` (forum/handlers.go:270) for the
single-character separator used by the code: `""` yields `[""]`, a string
with k colons yields k+1 fields (empty fields kept), and the result is
never the empty list. -/
def splitColon (s : String) : List String :=
  (splitCharList ':' s.toList).map fun l => String.mk l

/-- The observable outcome of the `ValidateSessionToken` middleware for one
request. `proceed u cleared` means `next.ServeHTTP` ran with `u` stored
under the user context key (`none` is the `(*User)(nil)` value) and
`cleared` records whether `h.Session.Remove` was called first;
`unauthorized` is `http.Error(..., 401)`; `internalError` is
`http.Error(..., 500)`; `panicked` marks a nil-pointer dereference. -/
inductive Outcome where
  | proceed : Option User → Bool → Outcome
  | unauthorized : Outcome
  | internalError : Outcome
  | panicked : Outcome
deriving DecidableEq, Repr

/-- Embeds `Handlers.ValidateSessionToken` (forum/handlers.go:264-303).

Arguments: `sessionTok` is the result of `GetTokenFromSession`
(forum/handlers.go:305-311): `some t` when the session store holds a
string under key "token", `none` when the lookup errors (store miss).
`authHeader` is `r.Header.Get("Authorization")` (absent header = `""`).
`tokenLookup` embeds `db.GetTokenByValue`, `userByEmail` embeds
`db.GetUserByEmail`, and `now` is `time.Now()`.

Faithfulness notes, keyed to the source:
- handlers.go:270 `parts := strings.Split(apiKey, ":")` is `splitColon`;
  both return `[""]` on the empty string and never return `[]`.
- handlers.go:271 `if apiKey == "" || len(parts) != 2` falls through to
  `next` with a nil user.
- handlers.go:277 `if err != nil || user == nil || user.Key != parts[1]`
  writes a 401.
- handlers.go:287 `if err != nil || tk.ExpiresAt.Before(time.Now())`:
  when `GetTokenByValue` reports not-found as `(nil, nil)`, `err` is nil
  and `tk.ExpiresAt` dereferences a nil pointer, so this case is
  `Outcome.panicked`. `Before` is a strict comparison, `expiresAt < now`.
- handlers.go:290 removes the session entry before proceeding with a nil
  user, which the `proceed none true` outcome records.
- handlers.go:295-299 checks only `err != nil` on the user lookup; the
  `(nil, nil)` not-found result proceeds with a nil user in the context. -/
def validateSessionToken (sessionTok : Option String) (authHeader : String)
    (tokenLookup : String → RepoResult Token)
    (userByEmail : String → RepoResult User) (now : Nat) : Outcome :=
  match sessionTok with
  | none =>
      if authHeader = "" ∨ (splitColon authHeader).length ≠ 2 then
        Outcome.proceed none false
      else
        match userByEmail ((splitColon authHeader).headD "") with
        | RepoResult.ok user =>
            if user.key = (splitColon authHeader).getD 1 "" then
              Outcome.proceed (some user) false
            else
              Outcome.unauthorized
        | RepoResult.notFound => Outcome.unauthorized
        | RepoResult.err => Outcome.unauthorized
  | some token =>
      match tokenLookup token with
      | RepoResult.err => Outcome.proceed none true
      | RepoResult.notFound => Outcome.panicked
      | RepoResult.ok tk =>
          if tk.expiresAt < now then
            Outcome.proceed none true
          else
            match userByEmail tk.email with
            | RepoResult.err => Outcome.internalError
            | RepoResult.notFound => Outcome.proceed none false
            | RepoResult.ok user => Outcome.proceed (some user) false

/-- Embeds the mark-all-read loop of `listNotificationsHandler`
(forum/handlers.go:132-139): every notification whose `ReadAt.IsZero()`
gets `ReadAt = time.Now()`; `t` is that `time.Now()` instant. -/
def markAllRead (t : Nat) (l : List Notification) : List Notification :=
  l.map fun n => if n.readAt = 0 then { n with readAt := t } else n

/-- Embeds the append performed by the notification dispatcher
(forum/handlers.go:633): `user.Notifications = append(user.Notifications, notif)`. -/
def appendNotif (n : Notification) (l : List Notification) : List Notification :=
  l ++ [n]

/-- Embeds the filtering loop of `deleteNotificationHandler`
(forum/handlers.go:181-196): every entry whose `ID` differs from the
requested id is kept, in order. -/
def deleteNotif (targetID : String) (l : List Notification) : List Notification :=
  l.filter fun n => n.id ≠ targetID

/-- Phase of one in-flight read-modify-write operation on a user record:
not yet started, holding the in-memory copy fetched from the database, or
finished (its `SaveUser` write has landed). -/
inductive OpPhase where
  | ready : OpPhase
  | fetched : List Notification → OpPhase
  | done : OpPhase
deriving DecidableEq, Repr

/-- State of two concurrent request paths mutating the same user's
notification list, as the code does with no coordination: `db` is the
persisted list (the row `SaveUser` overwrites, forum/db.go:189-220),
`p1` and `p2` are the two operations' phases. -/
structure ConcState where
  db : List Notification
  p1 : OpPhase
  p2 : OpPhase
deriving DecidableEq, Repr

/-- Interleaving semantics of two concurrent fetch → mutate-in-memory →
whole-record-save operations against the same user row, each following the
shape shared by the dispatcher append (forum/handlers.go:628-634), the
mark-all-read path (forum/handlers.go:126-146) and the delete path
(forum/handlers.go:165-197): a fetch copies the current `db` into the
operation's memory, and a save overwrites `db` with the operation's
mutation `f1`/`f2` applied to its own fetched copy. No step inspects the
other operation's state: the code has no locking or versioning. -/
inductive CStep (f1 f2 : List Notification → List Notification) :
    ConcState → ConcState → Prop where
  | fetch1 (s : ConcState) (h : s.p1 = OpPhase.ready) :
      CStep f1 f2 s { db := s.db, p1 := OpPhase.fetched s.db, p2 := s.p2 }
  | save1 (s : ConcState) (l : List Notification) (h : s.p1 = OpPhase.fetched l) :
      CStep f1 f2 s { db := f1 l, p1 := OpPhase.done, p2 := s.p2 }
  | fetch2 (s : ConcState) (h : s.p2 = OpPhase.ready) :
      CStep f1 f2 s { db := s.db, p1 := s.p1, p2 := OpPhase.fetched s.db }
  | save2 (s : ConcState) (l : List Notification) (h : s.p2 = OpPhase.fetched l) :
      CStep f1 f2 s { db := f2 l, p1 := s.p1, p2 := OpPhase.done }

/-- State of the notification dispatcher pipeline for one recipient user:
`queue` is the FIFO channel buffer of undelivered notifications, `db` is
the user's persisted notification list, and `pendingSaves` holds the
whole-record payloads of `go h.db.SaveUser(user)` goroutines
(forum/handlers.go:634) that have been spawned but whose database write
has not landed yet. -/
structure DispState where
  queue : List Notification
  db : List Notification
  pendingSaves : List (List Notification)
deriving DecidableEq, Repr

/-- Small-step semantics of `StartNotificationListener`'s delivery case
(forum/handlers.go:626-637) together with the spawned save goroutines.
`deliver` embeds one loop iteration for a routable notification: receive
the head of the FIFO channel, fetch the user (reading the current `db`),
append in memory, and spawn `go h.db.SaveUser(user)` whose payload is the
fetched list plus the new notification. `skip` embeds the
`notif.UserID != ""` guard (forum/handlers.go:627) dropping an un-routable
notification. `flush` executes one spawned save: the goroutines run
concurrently, so any pending payload may land next, overwriting `db`
wholesale (the `ON CONFLICT ... DO UPDATE` in forum/db.go:195-206). -/
inductive DStep : DispState → DispState → Prop where
  | deliver (s : DispState) (n : Notification) (rest : List Notification)
      (hq : s.queue = n :: rest) (hid : n.userID ≠ "") :
      DStep s { queue := rest, db := s.db,
                pendingSaves := s.pendingSaves ++ [appendNotif n s.db] }
  | skip (s : DispState) (n : Notification) (rest : List Notification)
      (hq : s.queue = n :: rest) (hid : n.userID = "") :
      DStep s { queue := rest, db := s.db, pendingSaves := s.pendingSaves }
  | flush (s : DispState) (i : Nat) (h : i < s.pendingSaves.length) :
      DStep s { queue := s.queue, db := s.pendingSaves.get ⟨i, h⟩,
                pendingSaves := s.pendingSaves.eraseIdx i }

/-- Capacity of the notification channel: `make(chan Notification, 100)`
in `NewHandlers` (forum/handlers.go:74). -/
def queueCapacity : Nat := 100

/-- State of the `NotifCh` buffered channel: the FIFO buffer of
notifications sent but not yet received. -/
structure ChanState where
  buffer : List Notification
deriving DecidableEq, Repr

/-- Semantics of the Go buffered channel `NotifCh`: `send` embeds the
blocking send `h.NotifCh <- Notification{...}` in `createPost`
(forum/handlers.go:572-579), which completes only while the buffer holds
fewer than `queueCapacity` items; `recv` embeds `notif := <-h.NotifCh` in
the dispatcher (forum/handlers.go:626), removing the oldest element. -/
inductive ChanStep : ChanState → ChanState → Prop where
  | send (s : ChanState) (n : Notification) (h : s.buffer.length < queueCapacity) :
      ChanStep s { buffer := s.buffer ++ [n] }
  | recv (s : ChanState) (n : Notification) (rest : List Notification)
      (h : s.buffer = n :: rest) :
      ChanStep s { buffer := rest }

/-- A channel state reachable from the empty buffer `NewHandlers` creates. -/
def ChanReachable (s : ChanState) : Prop :=
  Relation.ReflTransGen ChanStep { buffer := [] } s

/-- Result of `db.GetUserByID` as observed by the dispatcher
(forum/handlers.go:628-631): a user, or a failure. -/
inductive FetchResult where
  | ok : User → FetchResult
  | fail : FetchResult
deriving Repr

/-- Result of the `db.SaveUser` write spawned by the dispatcher. -/
inductive SaveResult where
  | ok : SaveResult
  | fail : SaveResult
deriving DecidableEq, Repr

/-- Observable effect of one delivery iteration of the dispatcher loop. -/
structure DeliveryEffect where
  errorLogs : List String
  saveAttempts : Nat
  continues : Bool
deriving DecidableEq, Repr

/-- Embeds the delivery case of `StartNotificationListener`
(forum/handlers.go:626-637) as the effect of one iteration: an empty
`notif.UserID` skips the body; a fetch failure prints the error and
`continue`s; on a successful fetch the notification is appended and
`go h.db.SaveUser(user)` is spawned exactly once — the goroutine's error
return is discarded, so the effect does not depend on `saveRes` and no
error is printed for a failed save; the loop always continues. -/
def deliverOnce (notif : Notification) (fetch : FetchResult)
    (saveRes : SaveResult) : DeliveryEffect :=
  if notif.userID = "" then
    { errorLogs := [], saveAttempts := 0, continues := true }
  else
    match fetch, saveRes with
    | FetchResult.fail, _ =>
        { errorLogs := ["Error retrieving user " ++ notif.userID],
          saveAttempts := 0, continues := true }
    | FetchResult.ok _, _ =>
        { errorLogs := [], saveAttempts := 1, continues := true }

/-- The notification list obtained when the dispatcher's deliveries for
`ns` are fully serialized: each spawned save lands before the next
delivery fetches the user, so every iteration appends to the latest
persisted list. -/
def runSync (db : List Notification) (ns : List Notification) : List Notification :=
  ns.foldl (fun acc n => appendNotif n acc) db

/-- A concrete user record for instantiating the theorems. -/
def sampleUser : User :=
  { id := "u1", email := "a@b.com", key := "k1", handle := "rex", notifications := [] }

/-- A concrete session token that is stale at instant 7 (expired at 3). -/
def tkStale : Token :=
  { handle := "", id := "tok-stale", email := "a@b.com", userID := "u1",
    token := "sess1", createdAt := 0, expiresAt := 3 }

/-- A concrete session token whose expiry instant is exactly 7. -/
def tkEdge : Token :=
  { handle := "", id := "tok-edge", email := "a@b.com", userID := "u1",
    token := "sess1", createdAt := 0, expiresAt := 7 }

/-- A concrete session token still live at instant 7 (expires at 9). -/
def tkLive : Token :=
  { handle := "", id := "tok-live", email := "a@b.com", userID := "u1",
    token := "sess1", createdAt := 0, expiresAt := 9 }

/-- C2 counterexample: with no session value, a present but malformed
Authorization header — "abc" has no colon, "a:b:c" has two — is NOT
rejected: `ValidateSessionToken` falls into the `apiKey == "" ||
len(parts) != 2` branch (forum/handlers.go:271) and invokes the downstream
handler with a nil user, i.e. it resolves Anonymous instead of returning
unauthorized. -/
theorem malformedHeaderNotRejected :
    validateSessionToken none "abc" (fun _ => RepoResult.err)
        (fun _ => RepoResult.err) 0 = Outcome.proceed none false ∧
    validateSessionToken none "a:b:c" (fun _ => RepoResult.err)
        (fun _ => RepoResult.err) 0 = Outcome.proceed none false ∧
    validateSessionToken none "abc" (fun _ => RepoResult.err)
        (fun _ => RepoResult.err) 0 ≠ Outcome.unauthorized := by
  refine ⟨rfl, rfl, ?_⟩
  decide

/-- C2 amended: for every request with no session value whose
Authorization header is non-empty but does not split into exactly two
colon-separated fields, credential resolution treats the credential as
absent: the downstream handler runs with a nil user (Anonymous), the
session is not cleared, and no unauthorized error is produced. -/
theorem malformedHeaderAnonymous (hdr : String)
    (tl : String → RepoResult Token) (ue : String → RepoResult User) (now : Nat)
    (hne : hdr ≠ "") (hlen : (splitColon hdr).length ≠ 2) :
    validateSessionToken none hdr tl ue now = Outcome.proceed none false := by
  simp only [validateSessionToken]
  rw [if_pos (Or.inr hlen)]

/-- C2 amended, witnessed at the concrete header "abc". -/
theorem malformedHeaderAnonymousWitness :
    validateSessionToken none "abc" (fun _ => RepoResult.err)
        (fun _ => RepoResult.err) 0 = Outcome.proceed none false :=
  malformedHeaderAnonymous "abc" (fun _ => RepoResult.err)
    (fun _ => RepoResult.err) 0 (by decide) (by decide)

/-- C3: evaluating the session path at concrete repository behaviours, at
instant 7. A lookup error and a stale token (expired at 3) both clear the
session entry and proceed with a nil user, as the claim states; but the
not-found case — `GetTokenByValue` returning `(nil, nil)`
(forum/db.go:266-268) — dereferences the nil token at
`tk.ExpiresAt.Before(...)` (forum/handlers.go:287) and panics instead of
clearing the session and resolving Anonymous; and a token whose expiry
equals `now` is treated as live (`Before` is strict), not as expired. -/
theorem tokenNotFoundPanics :
    validateSessionToken (some "sess1") "" (fun _ => RepoResult.err)
        (fun _ => RepoResult.ok sampleUser) 7 = Outcome.proceed none true ∧
    validateSessionToken (some "sess1") "" (fun _ => RepoResult.ok tkStale)
        (fun _ => RepoResult.ok sampleUser) 7 = Outcome.proceed none true ∧
    validateSessionToken (some "sess1") "" (fun _ => RepoResult.notFound)
        (fun _ => RepoResult.ok sampleUser) 7 = Outcome.panicked ∧
    validateSessionToken (some "sess1") "" (fun _ => RepoResult.ok tkEdge)
        (fun _ => RepoResult.ok sampleUser) 7
      = Outcome.proceed (some sampleUser) false :=
  ⟨rfl, by decide, rfl, by decide⟩

/-- C4: credential resolution is not total on the repository outcomes: when
the session store holds a token value and the token lookup reports
not-found by returning a nil `SessionToken` with a nil error, the
middleware dereferences the nil pointer (forum/handlers.go:287) — the
outcome is a panic, not Authenticated, Anonymous, or an error response. -/
theorem resolveCanPanic :
    validateSessionToken (some "t0") "" (fun _ => RepoResult.notFound)
        (fun _ => RepoResult.notFound) 0 = Outcome.panicked := rfl

/-- C5: when the session store holds a token value, the resolution outcome
is the same for every Authorization header: the API-key credential is
never consulted on the session path (forum/handlers.go:269-283 runs only
inside the session-miss branch). -/
theorem sessionPathIgnoresHeader (tok h1 h2 : String)
    (tl : String → RepoResult Token) (ue : String → RepoResult User) (now : Nat) :
    validateSessionToken (some tok) h1 tl ue now
      = validateSessionToken (some tok) h2 tl ue now := rfl

/-- C6: with no session value and a well-formed two-field header
credential, a user-lookup error, a missing user, or a stored API key
differing from the supplied key all produce the unauthorized error
(forum/handlers.go:277-279), never an Anonymous pass-through; an exact
key match authenticates that user. -/
theorem apiKeyExactMatch (hdr : String)
    (tl : String → RepoResult Token) (ue : String → RepoResult User) (now : Nat)
    (hne : hdr ≠ "") (hlen : (splitColon hdr).length = 2) :
    (∀ u, ue ((splitColon hdr).headD "") = RepoResult.ok u →
        validateSessionToken none hdr tl ue now =
          if u.key = (splitColon hdr).getD 1 "" then Outcome.proceed (some u) false
          else Outcome.unauthorized) ∧
    (ue ((splitColon hdr).headD "") = RepoResult.notFound →
        validateSessionToken none hdr tl ue now = Outcome.unauthorized) ∧
    (ue ((splitColon hdr).headD "") = RepoResult.err →
        validateSessionToken none hdr tl ue now = Outcome.unauthorized) := by
  have hcond : ¬ (hdr = "" ∨ (splitColon hdr).length ≠ 2) := by
    push_neg
    exact ⟨hne, hlen⟩
  refine ⟨?_, ?_, ?_⟩
  · intro u hu
    simp only [validateSessionToken]
    rw [if_neg hcond, hu]
  · intro h
    simp only [validateSessionToken]
    rw [if_neg hcond, h]
  · intro h
    simp only [validateSessionToken]
    rw [if_neg hcond, h]

/-- C6, witnessed: the credential "a@b.com:k1" against a repository whose
lookup returns `sampleUser` (stored key "k1") authenticates that user. -/
theorem apiKeyExactMatchWitness :
    validateSessionToken none "a@b.com:k1" (fun _ => RepoResult.err)
        (fun _ => RepoResult.ok sampleUser) 0
      = Outcome.proceed (some sampleUser) false := by
  have h := (apiKeyExactMatch "a@b.com:k1" (fun _ => RepoResult.err)
      (fun _ => RepoResult.ok sampleUser) 0 (by decide) (by decide)).1 sampleUser rfl
  rw [h]
  rfl

/-- C10: a found, unexpired session token whose user lookup reports
not-found with no error (`GetUserByEmail` returning `(nil, nil)`,
forum/db.go:299-301) does not fail the request: only `err != nil` is
checked (forum/handlers.go:296), so the nil user is stored in the request
context and the downstream handler runs — the request proceeds as if
anonymous, with no internal error and no unauthorized rejection. -/
theorem missingUserProceedsNil (tok hdr : String)
    (tl : String → RepoResult Token) (ue : String → RepoResult User) (now : Nat)
    (tk : Token) (hfind : tl tok = RepoResult.ok tk) (hexp : ¬ tk.expiresAt < now)
    (huser : ue tk.email = RepoResult.notFound) :
    validateSessionToken (some tok) hdr tl ue now = Outcome.proceed none false := by
  simp only [validateSessionToken]
  rw [hfind]
  show (if tk.expiresAt < now then Outcome.proceed none true
        else
          match ue tk.email with
          | RepoResult.err => Outcome.internalError
          | RepoResult.notFound => Outcome.proceed none false
          | RepoResult.ok user => Outcome.proceed (some user) false)
      = Outcome.proceed none false
  rw [if_neg hexp, huser]

/-- C10, witnessed: the live token `tkLive` with a user repository that
reports not-found resolves to a nil-user pass-through at instant 7. -/
theorem missingUserProceedsNilWitness :
    validateSessionToken (some "sess1") "" (fun _ => RepoResult.ok tkLive)
        (fun _ => RepoResult.notFound) 7 = Outcome.proceed none false :=
  missingUserProceedsNil "sess1" "" (fun _ => RepoResult.ok tkLive)
    (fun _ => RepoResult.notFound) 7 tkLive rfl (by decide) rfl

/-- A concrete unread notification persisted for user "u1". -/
def notifZero : Notification :=
  { fromUser := "u0", id := "n0", userID := "u1", message := "m0",
    createdAt := 1, readAt := 0, link := "/topics/t" }

/-- Builds a concrete notification addressed to user "u1" with the given id. -/
def mkNotif (i : String) : Notification :=
  { fromUser := "u2", id := i, userID := "u1", message := "m",
    createdAt := 2, readAt := 0, link := "/topics/t" }

/-- First of three concrete notifications enqueued in order. -/
def notifA : Notification := mkNotif "nA"

/-- Second of three concrete notifications enqueued in order. -/
def notifB : Notification := mkNotif "nB"

/-- Third of three concrete notifications enqueued in order. -/
def notifC : Notification := mkNotif "nC"

/-- Initial state for the lost-update execution: the user's persisted list
holds one unread notification; a mark-all-read request and a dispatcher
append are both about to run. -/
def lostUpdateInit : ConcState :=
  { db := [notifZero], p1 := OpPhase.ready, p2 := OpPhase.ready }

/-- Final state of the lost-update execution: both operations have
completed, and the persisted list is the mark-all-read result alone. -/
def lostUpdateFinal : ConcState :=
  { db := markAllRead 5 [notifZero], p1 := OpPhase.done, p2 := OpPhase.done }

/-- C1: the lost-update hazard is real on the code's uncoordinated
fetch → mutate → whole-record-save paths. In the interleaving where the
mark-all-read request (forum/handlers.go:126-146) and the dispatcher
append (forum/handlers.go:628-634) both fetch the user before either
saves, and the append's save lands first, both operations run to
completion yet the final persisted count equals the initial count — the
append is silently discarded, refuting final = initial + appends. -/
theorem concurrentAppendLost :
    Relation.ReflTransGen (CStep (markAllRead 5) (appendNotif notifA))
        lostUpdateInit lostUpdateFinal ∧
    lostUpdateFinal.p1 = OpPhase.done ∧ lostUpdateFinal.p2 = OpPhase.done ∧
    lostUpdateFinal.db.length = lostUpdateInit.db.length ∧
    lostUpdateFinal.db.length ≠ lostUpdateInit.db.length + 1 := by
  refine ⟨?_, by decide, by decide, by decide, by decide⟩
  have h1 : CStep (markAllRead 5) (appendNotif notifA) lostUpdateInit
      { db := [notifZero], p1 := OpPhase.fetched [notifZero], p2 := OpPhase.ready } :=
    CStep.fetch1 lostUpdateInit rfl
  have h2 : CStep (markAllRead 5) (appendNotif notifA)
      { db := [notifZero], p1 := OpPhase.fetched [notifZero], p2 := OpPhase.ready }
      { db := [notifZero], p1 := OpPhase.fetched [notifZero],
        p2 := OpPhase.fetched [notifZero] } :=
    CStep.fetch2 _ rfl
  have h3 : CStep (markAllRead 5) (appendNotif notifA)
      { db := [notifZero], p1 := OpPhase.fetched [notifZero],
        p2 := OpPhase.fetched [notifZero] }
      { db := appendNotif notifA [notifZero], p1 := OpPhase.fetched [notifZero],
        p2 := OpPhase.done } :=
    CStep.save2 _ [notifZero] rfl
  have h4 : CStep (markAllRead 5) (appendNotif notifA)
      { db := appendNotif notifA [notifZero], p1 := OpPhase.fetched [notifZero],
        p2 := OpPhase.done }
      lostUpdateFinal :=
    CStep.save1 _ [notifZero] rfl
  exact Relation.ReflTransGen.head h1 (Relation.ReflTransGen.head h2
    (Relation.ReflTransGen.head h3 (Relation.ReflTransGen.head h4
      Relation.ReflTransGen.refl)))

/-- Initial dispatcher state for the FIFO execution: three notifications
queued in order, empty persisted list, no save in flight. -/
def fifoInit : DispState :=
  { queue := [notifA, notifB, notifC], db := [], pendingSaves := [] }

/-- Final dispatcher state of the interleaving in
`asyncSaveDropsNotifications`: only the third notification survives. -/
def fifoFinal : DispState :=
  { queue := [], db := [notifC], pendingSaves := [] }

/-- C7 counterexample: because the dispatcher persists with
`go h.db.SaveUser(user)` (forum/handlers.go:634), the save goroutines race
with the next iteration's fetch. In the interleaving where all three
deliveries fetch before any spawned save lands, the three saves then land
in order, and the final persisted list is `[notifC]` — not
`[notifA, notifB, notifC]` — even though the dispatcher received the
notifications in FIFO order and every delivery completed. -/
theorem asyncSaveDropsNotifications :
    Relation.ReflTransGen DStep fifoInit fifoFinal ∧
    fifoFinal.db ≠ [notifA, notifB, notifC] := by
  refine ⟨?_, by decide⟩
  have h1 : DStep fifoInit
      { queue := [notifB, notifC], db := [], pendingSaves := [[notifA]] } :=
    DStep.deliver _ notifA [notifB, notifC] rfl (by decide)
  have h2 : DStep { queue := [notifB, notifC], db := [], pendingSaves := [[notifA]] }
      { queue := [notifC], db := [], pendingSaves := [[notifA], [notifB]] } :=
    DStep.deliver _ notifB [notifC] rfl (by decide)
  have h3 : DStep { queue := [notifC], db := [], pendingSaves := [[notifA], [notifB]] }
      { queue := [], db := [], pendingSaves := [[notifA], [notifB], [notifC]] } :=
    DStep.deliver _ notifC [] rfl (by decide)
  have h4 : DStep { queue := [], db := [], pendingSaves := [[notifA], [notifB], [notifC]] }
      { queue := [], db := [notifA], pendingSaves := [[notifB], [notifC]] } :=
    DStep.flush _ 0 (by decide)
  have h5 : DStep { queue := [], db := [notifA], pendingSaves := [[notifB], [notifC]] }
      { queue := [], db := [notifB], pendingSaves := [[notifC]] } :=
    DStep.flush _ 0 (by decide)
  have h6 : DStep { queue := [], db := [notifB], pendingSaves := [[notifC]] }
      fifoFinal :=
    DStep.flush _ 0 (by decide)
  exact Relation.ReflTransGen.head h1 (Relation.ReflTransGen.head h2
    (Relation.ReflTransGen.head h3 (Relation.ReflTransGen.head h4
      (Relation.ReflTransGen.head h5 (Relation.ReflTransGen.head h6
        Relation.ReflTransGen.refl)))))

/-- C7 amended: the dispatcher receives notifications in the enqueued FIFO
order, and whenever the deliveries are serialized — each spawned save
lands before the next delivery fetches the user — the persisted list is
the initial list with the notifications appended in exactly the enqueued
order. (The unserialized schedules can drop notifications, see the
counterexample.) -/
theorem fifoSerializedOrder (ns : List Notification) (db : List Notification)
    (hids : ∀ n ∈ ns, n.userID ≠ "") :
    runSync db ns = db ++ ns ∧
    Relation.ReflTransGen DStep { queue := ns, db := db, pendingSaves := [] }
      { queue := [], db := db ++ ns, pendingSaves := [] } := by
  revert hids
  induction ns generalizing db with
  | nil =>
      intro _
      refine ⟨by simp [runSync], ?_⟩
      rw [List.append_nil]
  | cons n rest ih =>
      intro hids
      have hn : n.userID ≠ "" := hids n (List.mem_cons_self n rest)
      have hrest : ∀ m ∈ rest, m.userID ≠ "" := fun m hm =>
        hids m (List.mem_cons_of_mem n hm)
      obtain ⟨ihrun, ihreach⟩ := ih (db ++ [n]) hrest
      constructor
      · show runSync (appendNotif n db) rest = db ++ n :: rest
        rw [show appendNotif n db = db ++ [n] from rfl, ihrun]
        simp
      · have h1 : DStep { queue := n :: rest, db := db, pendingSaves := [] }
            { queue := rest, db := db, pendingSaves := [appendNotif n db] } :=
          DStep.deliver _ n rest rfl hn
        have h2 : DStep { queue := rest, db := db, pendingSaves := [appendNotif n db] }
            { queue := rest, db := db ++ [n], pendingSaves := [] } :=
          DStep.flush _ 0 (by simp)
        have hassoc : db ++ n :: rest = (db ++ [n]) ++ rest := by simp
        rw [hassoc]
        exact Relation.ReflTransGen.head h1 (Relation.ReflTransGen.head h2 ihreach)

/-- C7 amended, witnessed on the three concrete notifications delivered
into an empty list under the serialized schedule. -/
theorem fifoSerializedOrderWitness :
    runSync [] [notifA, notifB, notifC] = [notifA, notifB, notifC] ∧
    Relation.ReflTransGen DStep
      { queue := [notifA, notifB, notifC], db := [], pendingSaves := [] }
      { queue := [], db := [notifA, notifB, notifC], pendingSaves := [] } := by
  have h := fifoSerializedOrder [notifA, notifB, notifC] [] (by decide)
  simpa using h

/-- C8: the notification channel created by `NewHandlers`
(forum/handlers.go:74) has fixed capacity 100; every state reachable from
the empty buffer holds at most 100 undelivered notifications; and from a
full buffer the only possible step is a receive — no send is enabled, so
a producer's blocking send `h.NotifCh <- ...` (forum/handlers.go:572)
cannot complete until the dispatcher removes an item. -/
theorem notifQueueBounded (s : ChanState) (h : ChanReachable s) :
    queueCapacity = 100 ∧ s.buffer.length ≤ queueCapacity ∧
    (s.buffer.length = queueCapacity →
      ∀ t, ChanStep s t → t.buffer.length + 1 = queueCapacity) := by
  refine ⟨rfl, ?_, ?_⟩
  · induction h with
    | refl => simp
    | tail hab hbc ih =>
        cases hbc with
        | send n hlt => simpa using hlt
        | recv n rest hb =>
            have hlen : rest.length + 1 ≤ queueCapacity := by
              rw [hb] at ih
              simpa using ih
            show rest.length ≤ queueCapacity
            omega
  · intro hfull t hstep
    cases hstep with
    | send n hlt => omega
    | recv n rest hb =>
        rw [hb] at hfull
        simpa using hfull

/-- C8, witnessed at the empty channel state `NewHandlers` starts from. -/
theorem notifQueueBoundedWitness :
    queueCapacity = 100 ∧ (ChanState.mk []).buffer.length ≤ queueCapacity ∧
    ((ChanState.mk []).buffer.length = queueCapacity →
      ∀ t, ChanStep (ChanState.mk []) t → t.buffer.length + 1 = queueCapacity) :=
  notifQueueBounded { buffer := [] } Relation.ReflTransGen.refl

/-- C9 counterexample: a failed persistence write is NOT logged. The
dispatcher spawns `go h.db.SaveUser(user)` (forum/handlers.go:634) and
discards the goroutine's error return, so the delivery effect with a
failed save is identical to the effect with a successful save and its
error log is empty — there is no log entry recording the failure. -/
theorem saveFailureSilent :
    deliverOnce notifA (FetchResult.ok sampleUser) SaveResult.fail
      = deliverOnce notifA (FetchResult.ok sampleUser) SaveResult.ok ∧
    (deliverOnce notifA (FetchResult.ok sampleUser) SaveResult.fail).errorLogs = [] :=
  ⟨rfl, rfl⟩

/-- C9 amended: after the dispatcher has appended a notification to the
fetched user, the persistence write is attempted exactly once (never
retried), its failure is silently ignored rather than logged (the effect
does not depend on the save result and records no error output), and the
dispatcher loop continues to the next iteration. -/
theorem saveFailureIgnored (n : Notification) (u : User) (s : SaveResult)
    (h : n.userID ≠ "") :
    deliverOnce n (FetchResult.ok u) s
      = { errorLogs := [], saveAttempts := 1, continues := true } := by
  simp only [deliverOnce]
  rw [if_neg h]

/-- C9 amended, witnessed at a concrete delivery whose save fails. -/
theorem saveFailureIgnoredWitness :
    deliverOnce notifA (FetchResult.ok sampleUser) SaveResult.fail
      = { errorLogs := [], saveAttempts := 1, continues := true } :=
  saveFailureIgnored notifA sampleUser SaveResult.fail (by decide)

end Volconvo
